import Mathlib

/-!
Shallow embedding of the data-acquisition core of the WSP-Study-HIST311
pipeline (`src/fetch_data.py`, `src/prepare_data.py`), together with proofs
of the specified properties of its components: the paginated fetcher
(`who_paged`), the retrying HTTP client (`who_get`), the schema normalizer
(`detect_time_field`, country filtering), the dimension resolver
(`infer_female_value_code`), the filtered puller (`who_pull_indicator_year`),
the joiner in `main`, and the derived log column of `prepare_data.py`.

Tabular data is modelled as a `DF`: an explicit column list plus rows given
as association lists from column names to nullable string cells (pandas NaN
is `Option.none`).  Numeric tables used by the joiner are modelled as keyed
lists with rational (or real, for the log column) values.  Network effects
are modelled by passing the remote source in as a function (an oracle from
request parameters to the rows the server would return).
-/

namespace WSP

/-- A cell of a WHO OData data frame: `none` models pandas NaN / a missing key. -/
abbrev Cell := Option String

/-- One row of a raw WHO response: an association list from column names to cells. -/
abbrev Row := List (String × Cell)

/-- A pandas DataFrame of raw WHO rows: a column list plus the rows. -/
structure DF where
  cols : List String
  rows : List Row
deriving DecidableEq, Repr

/-- Reading `df[c]` on one row: the cell stored under column `c`, `none`
when the key is absent or the stored cell is NaN. -/
def rowGet (r : Row) (c : String) : Option String :=
  (r.find? (fun p => p.1 = c)).bind (fun p => p.2)

/-- Python `str.lower()`, modelled character-wise. -/
def pyLower (s : String) : String := ⟨s.data.map Char.toLower⟩

/-- Python `str.startswith(pre)`. -/
def pyStartsWith (s pre : String) : Bool := pre.data.isPrefixOf s.data

/-- Substring containment on character lists: the pattern is a prefix of
some suffix of the haystack. -/
def strContainsAux (pat : List Char) : List Char → Bool
  | [] => pat.isEmpty
  | a :: t => pat.isPrefixOf (a :: t) || strContainsAux pat t

/-- Python `pat in t` / `pandas.Series.str.contains(pat)` for a literal
pattern: substring containment. -/
def pyContains (t pat : String) : Bool := strContainsAux pat.data t.data

/-- Embeds lines 142-143 / 149-150 of `fetch_data.py`: if the frame has a
`SpatialDimType` column, keep only rows whose value there is `"COUNTRY"`;
otherwise the frame is kept unfiltered. -/
def filterCountry (df : DF) : DF :=
  if df.cols.contains "SpatialDimType" then
    { cols := df.cols
      rows := df.rows.filter (fun r => rowGet r "SpatialDimType" = some "COUNTRY") }
  else df

/-- The fixed preference order of time fields in `detect_time_field`. -/
def timePreference : List String :=
  ["TimeDimensionValue", "TimeDimensionBegin", "TimeDimensionYear"]

/-- Errors raised by `detect_time_field` (both are `RuntimeError` in the
source; the spec groups them as `SchemaDetectionError`). -/
inductive TimeFieldErr
  | emptySample
  | noTimeField
deriving DecidableEq, Repr

/-- Embeds `detect_time_field` (fetch_data.py:109-121), with the sampled
first page passed in: raise if the sample is empty, otherwise return the
first field of the fixed preference order present among the columns, and
raise if none is. -/
def detect_time_field (sample : DF) : Except TimeFieldErr String :=
  if sample.rows = [] then
    .error .emptySample
  else
    match timePreference.find? (fun f => sample.cols.contains f) with
    | some f => .ok f
    | none => .error .noTimeField

/-- The `$filter` string for the year-only query (fetch_data.py:128-131):
quoted comparison for `TimeDimensionValue`, numeric otherwise. -/
def timeFilterOf (time_field : String) (year : Int) : String :=
  if time_field = "TimeDimensionValue" then
    s!"{time_field} eq '{year}'"
  else
    s!"{time_field} eq {year}"

/-- The `$filter` string combining the year predicate with the `Dim1`
category predicate (fetch_data.py:134). -/
def combinedFilterOf (time_field : String) (year : Int) (code : String) : String :=
  s!"({timeFilterOf time_field year}) and (Dim1 eq '{code}')"

/-- The columns obeying the dimension naming convention
(fetch_data.py:152): those whose name starts with `"Dim"`. -/
def dimColsOf (df : DF) : List String :=
  df.cols.filter (fun c => pyStartsWith c "Dim")

/-- Embeds `who_pull_indicator_year` (fetch_data.py:124-158).  `fetch` is the
paged WHO source as an oracle from the `$filter` string to the data frame the
(successful) paged fetch would build; `sample` is the first page used by
`detect_time_field`.  The primary attempt applies the combined filter
server-side and keeps country rows; if that is empty and a category was
requested, the year-only result is re-fetched and the first `Dim*` column
containing the requested code is used for a local filter. -/
def who_pull_indicator_year (fetch : String → DF) (sample : DF) (year : Int)
    (sex_code : Option String) : Except TimeFieldErr DF :=
  match detect_time_field sample with
  | .error e => .error e
  | .ok time_field =>
    match sex_code with
    | none => .ok (filterCountry (fetch (timeFilterOf time_field year)))
    | some code =>
      let df := filterCountry (fetch (combinedFilterOf time_field year code))
      if df.rows = [] then
        let df_year := filterCountry (fetch (timeFilterOf time_field year))
        let dim_cols := dimColsOf df_year
        match dim_cols.find? (fun c => df_year.rows.any (fun r => rowGet r c = some code)) with
        | some c =>
            .ok { cols := df_year.cols
                  rows := df_year.rows.filter (fun r => rowGet r c = some code) }
        | none => .ok df
      else .ok df

/-! ### Paginated fetcher (`who_paged`, fetch_data.py:56-88) -/

/-- The WHO page-size ceiling: `WHO_TOP_LIMIT = 1000` (fetch_data.py:20). -/
def WHO_TOP_LIMIT : Nat := 1000

/-- Errors of the paginated fetcher: the `ValueError` on an oversized
`page_size` (spec: `ConfigurationError`), the `RuntimeError` on exceeding
`max_rows` (spec: `RunawayPaginationError`), and exhaustion of the fuel that
models a non-terminating `while True` loop. -/
inductive PagedErr
  | configError
  | runaway
  | fuelOut
deriving DecidableEq, Repr

/-- The `while True` loop of `who_paged`, over an abstract record type `α`.
`server top skip` is the `value` array the WHO endpoint returns for
`$top = top, $skip = skip`.  Returns the outcome together with the number of
network calls made.  Each iteration fetches one page; an empty page stops the
loop; otherwise the page is appended, `skip` advances by `page_size`, and the
runaway guard `len(out) > max_rows` is checked. -/
def who_paged_go {α : Type} (server : Nat → Nat → List α) (page_size max_rows : Nat) :
    Nat → Nat → List α → Except PagedErr (List α) × Nat
  | 0, _, _ => (.error .fuelOut, 0)
  | fuel + 1, skip, out =>
    let rows := server page_size skip
    if rows.isEmpty then (.ok out, 1)
    else
      let out2 := out ++ rows
      if out2.length > max_rows then (.error .runaway, 1)
      else
        let rest := who_paged_go server page_size max_rows fuel (skip + page_size) out2
        (rest.1, rest.2 + 1)

/-- Embeds `who_paged` (fetch_data.py:56-88): fail fast with the
configuration error when `page_size` exceeds `WHO_TOP_LIMIT` (before any
network call), otherwise run the paging loop from `skip = 0` with an empty
accumulator.  The second component counts network calls. -/
def who_paged {α : Type} (server : Nat → Nat → List α) (page_size max_rows fuel : Nat) :
    Except PagedErr (List α) × Nat :=
  if page_size > WHO_TOP_LIMIT then (.error .configError, 0)
  else who_paged_go server page_size max_rows fuel 0 []

/-! ### Retrying HTTP client (`who_get`, fetch_data.py:26-48) -/

/-- The backoff unit of `time.sleep(1.5 * attempt)`, as an exact rational. -/
def backoffUnit : ℚ := 3 / 2

/-- Trace of one `who_get` call: the final outcome (`.ok none` models the
`for` loop falling through without any attempt, only possible when
`retries = 0`), the sleeps performed between attempts, and the number of
attempts made. -/
structure WhoGetTrace (E J : Type) where
  result : Except E (Option J)
  sleeps : List ℚ
  attempts : Nat
deriving Repr

/-- The `for attempt in range(1, retries + 1)` loop of `who_get`, with the
outcome of each HTTP attempt given by the oracle `attemptRes`.  A successful
attempt returns immediately; a failed attempt sleeps `1.5 * attempt` and
continues when `attempt < retries`, and re-raises the last error otherwise. -/
def who_get_loop {E J : Type} (attemptRes : Nat → Except E J) (retries : Nat)
    (k : Nat) : WhoGetTrace E J :=
  if retries < k then
    { result := .ok none, sleeps := [], attempts := 0 }
  else
    match attemptRes k with
    | .ok j => { result := .ok (some j), sleeps := [], attempts := 1 }
    | .error e =>
      if hk : k < retries then
        let rest := who_get_loop attemptRes retries (k + 1)
        { result := rest.result
          sleeps := backoffUnit * k :: rest.sleeps
          attempts := rest.attempts + 1 }
      else
        { result := .error e, sleeps := [], attempts := 1 }
termination_by retries + 1 - k

/-- Embeds `who_get` (fetch_data.py:26-48): run the attempt loop starting at
attempt number 1. -/
def who_get {E J : Type} (attemptRes : Nat → Except E J) (retries : Nat) :
    WhoGetTrace E J :=
  who_get_loop attemptRes retries 1

/-! ### Dimension resolver (`infer_female_value_code`, fetch_data.py:95-106) -/

/-- Errors of the resolver: missing `code`/`title` columns (spec:
`SchemaMismatchError`) and no matching row (spec: `CategoryNotFoundError`);
both are `RuntimeError` in the source. -/
inductive ResolveErr
  | schemaMismatch
  | categoryNotFound
deriving DecidableEq, Repr

/-- Python `str` applied to a cell: NaN prints as `"nan"`. -/
def pyStr (c : Cell) : String :=
  match c with
  | some s => s
  | none => "nan"

/-- Embeds the lowercased-column lookup of fetch_data.py:97-99: the dict
comprehension from `c.lower()` to `c` keeps the last column whose
lowercasing is `key`, and `cols.get(key)` reads it back. -/
def lowerColGet (df : DF) (key : String) : Option String :=
  (df.cols.filter (fun c => pyLower c = key)).getLast?

/-- The row predicate of fetch_data.py:103: the lowercased title cell
contains `"female"` as a substring, NaN titles never matching
(`na=False`). -/
def titleMatches (title_col : String) (r : Row) : Bool :=
  match rowGet r title_col with
  | some t => pyContains (pyLower t) "female"
  | none => false

/-- Embeds `infer_female_value_code` (fetch_data.py:95-106), with the fetched
`SEX` dimension vocabulary passed in: locate the `code`/`title` columns
case-insensitively, fail on a schema mismatch, select the rows whose title
contains `"female"` case-insensitively, fail when none match, and return the
code cell of the first match as a Python string. -/
def infer_female_value_code (sex_vals : DF) : Except ResolveErr String :=
  match lowerColGet sex_vals "code", lowerColGet sex_vals "title" with
  | some code_col, some title_col =>
    match sex_vals.rows.find? (titleMatches title_col) with
    | some r => .ok (pyStr (rowGet r code_col))
    | none => .error .categoryNotFound
  | _, _ => .error .schemaMismatch

/-! ### Joiner (`main`, fetch_data.py:205-231) and pandas merge semantics -/

/-- pandas `left.merge(right, on=key, how="inner")` over keyed lists: each
left row is paired with every matching right row, in left order. -/
def innerJoin {α β : Type} (L : List (String × α)) (R : List (String × β)) :
    List (String × α × β) :=
  L.flatMap (fun p => (R.filter (fun q => q.1 = p.1)).map (fun q => (p.1, p.2, q.2)))

/-- pandas `left.merge(right, on=key, how="left")` over keyed lists: each
left row is paired with every matching right row, or with `none` when the
right table has no row for its key. -/
def leftJoin {α β : Type} (L : List (String × α)) (R : List (String × β)) :
    List (String × α × Option β) :=
  L.flatMap (fun p =>
    match R.filter (fun q => q.1 = p.1) with
    | [] => [(p.1, p.2, none)]
    | ms => ms.map (fun q => (p.1, p.2, some q.2)))

/-- Embeds `df[["iso3", value]].dropna()` on a two-column frame with
nullable key and value (fetch_data.py:205-207, 217-219): keep exactly the
rows where both are present.  The value is kept nullable in the type so that
downstream non-nullness is a theorem, not a typing artifact. -/
def dropna2 (t : List (Option String × Option ℚ)) : List (String × Option ℚ) :=
  t.filterMap (fun p =>
    match p.1, p.2 with
    | some k, some v => some (k, some v)
    | _, _ => none)

/-- One row of the final analysis table written by `main`. -/
structure ARow where
  iso3 : String
  insuff_pa_female_pct : Option ℚ
  skilled_birth_attendance_pct : Option ℚ
  gdp_pc : Option ℚ
  sec_enroll_f : Option ℚ
  female_activity_rate_pct : Option ℚ
deriving DecidableEq, Repr

/-- Embeds the join-and-derive tail of `main` (fetch_data.py:205-231): dropna
the two required WHO tables, inner-join them on `iso3`, left-join the two
World Bank control tables, then derive `female_activity_rate_pct` as
`100 - insuff_pa_female_pct` (NaN propagating through the subtraction). -/
def buildAnalysis (pa sba : List (Option String × Option ℚ))
    (gdp edu : List (String × Option ℚ)) : List ARow :=
  let pa_f := dropna2 pa
  let sba_f := dropna2 sba
  let j1 := innerJoin pa_f sba_f
  let j2 := leftJoin j1 gdp
  let j3 := leftJoin j2 edu
  j3.map (fun p =>
    { iso3 := p.1
      insuff_pa_female_pct := p.2.1.1.1
      skilled_birth_attendance_pct := p.2.1.1.2
      gdp_pc := (p.2.1.2).join
      sec_enroll_f := (p.2.2).join
      female_activity_rate_pct := p.2.1.1.1.map (fun v => 100 - v) })

/-! ### Derived log column (`prepare_data.py:14`) -/

open Classical in
/-- Embeds `np.where(df["NY.GDP.PCAP.CD"] > 0, np.log(df["NY.GDP.PCAP.CD"]), np.nan)`
cell-wise, with NaN as `none` and floats idealized as reals: a positive input
maps to its natural logarithm, a non-positive or NaN input to NaN
(`NaN > 0` is false in numpy, so NaN inputs take the `np.nan` branch). -/
noncomputable def log_gdp_pc (x : Option ℝ) : Option ℝ :=
  match x with
  | some v => if 0 < v then some (Real.log v) else none
  | none => none

/-! ### Specification vocabulary

`pagesConcat server page_size skip n` is the concatenation, in request
order, of the `n` successive pages the server yields starting at offset
`skip`: the reference value against which the paginated fetcher is
verified. -/

def pagesConcat {α : Type} (server : Nat → Nat → List α) (page_size : Nat) :
    Nat → Nat → List α
  | _, 0 => []
  | skip, n + 1 => server page_size skip ++ pagesConcat server page_size (skip + page_size) n

/-! ### Concrete inputs used by the witness and counterexample theorems -/

/-- A data frame with no columns and no rows, as built from an empty
`value` array. -/
def emptyDF : DF := { cols := [], rows := [] }

/-- A first-page sample whose time field is `TimeDimensionValue`. -/
def sampleTDV : DF :=
  { cols := ["TimeDimensionValue", "SpatialDim"]
    rows := [[("TimeDimensionValue", some "2019"), ("SpatialDim", some "AFG")]] }

/-- A first-page sample carrying only the second preference field
`TimeDimensionBegin`. -/
def sampleTDB : DF :=
  { cols := ["SpatialDim", "TimeDimensionBegin"]
    rows := [[("SpatialDim", some "AFG"), ("TimeDimensionBegin", some "2019")]] }

/-- A first-page sample carrying none of the three time fields. -/
def sampleNoTime : DF :=
  { cols := ["SpatialDim", "Year"]
    rows := [[("SpatialDim", some "AFG"), ("Year", some "2019")]] }

/-- Year-only rows in which the category code `"FMLE"` appears in two
different `Dim*` columns: the first row carries it in `Dim1`, the second
in `Dim2`. -/
def dfYearSplit : DF :=
  { cols := ["SpatialDimType", "Dim1", "Dim2"]
    rows := [ [("SpatialDimType", some "COUNTRY"), ("Dim1", some "FMLE"), ("Dim2", some "X")]
            , [("SpatialDimType", some "COUNTRY"), ("Dim1", some "Y"), ("Dim2", some "FMLE")] ] }

/-- A WHO source for which the combined filter returns nothing and the
year-only filter returns `dfYearSplit`. -/
def fetchSplit : String → DF :=
  fun s => if s = timeFilterOf "TimeDimensionValue" 2019 then dfYearSplit else emptyDF

/-- The rows of `dfYearSplit` carrying `"FMLE"` in some `Dim*` column (the
`K` rows of the fallback-idempotence property). -/
def kRowsSplit : List Row :=
  dfYearSplit.rows.filter
    (fun r => (dimColsOf dfYearSplit).any (fun c => rowGet r c = some "FMLE"))

/-- Year-only rows in which the category code `"FMLE"` appears only in the
`Dim2` column (not the first `Dim*` column scanned). -/
def dfYearDim2 : DF :=
  { cols := ["SpatialDimType", "Dim1", "Dim2"]
    rows := [ [("SpatialDimType", some "COUNTRY"), ("Dim1", some "SEX"), ("Dim2", some "FMLE")]
            , [("SpatialDimType", some "COUNTRY"), ("Dim1", some "SEX"), ("Dim2", some "MLE")]
            , [("SpatialDimType", some "COUNTRY"), ("Dim1", some "AGE"), ("Dim2", some "FMLE")] ] }

/-- A WHO source for which the combined filter returns nothing and the
year-only filter returns `dfYearDim2`. -/
def fetchDim2 : String → DF :=
  fun s => if s = timeFilterOf "TimeDimensionValue" 2019 then dfYearDim2 else emptyDF

/-- A paged source: two records on the first page, one (partial, nonzero)
record on the second page, nothing afterwards. -/
def srvW : Nat → Nat → List Nat :=
  fun _ skip => if skip = 0 then [10, 20] else if skip = 2 then [5] else []

/-- An HTTP attempt oracle whose attempt `k` always fails with error `k`. -/
def attemptFailW : Nat → Except Nat Nat := fun k => .error k

/-- A `SEX` vocabulary with `Code`/`Title` columns and a `Female` row in
second position. -/
def vocabMF : DF :=
  { cols := ["Code", "Title"]
    rows := [ [("Code", some "M"), ("Title", some "Male")]
            , [("Code", some "F"), ("Title", some "Female")] ] }

/-- A vocabulary whose titles never contain `"female"`. -/
def vocabNoFemale : DF :=
  { cols := ["Code", "Title"]
    rows := [[("Code", some "M"), ("Title", some "Male")]] }

/-- A vocabulary lacking the `title` column. -/
def vocabNoTitle : DF :=
  { cols := ["Code", "Label"]
    rows := [[("Code", some "M"), ("Label", some "Male")]] }

/-- A primary table with 10 unique country codes. -/
def primary10 : List (String × ℚ) :=
  [("A1", 1), ("A2", 2), ("A3", 3), ("A4", 4), ("A5", 5),
   ("A6", 6), ("A7", 7), ("A8", 8), ("A9", 9), ("A10", 10)]

/-- A control table sharing exactly 7 codes with `primary10` (codes
`A1`..`A7`) plus 2 codes of its own. -/
def left7 : List (String × ℚ) :=
  [("A1", 11), ("A2", 12), ("A3", 13), ("A4", 14), ("A5", 15),
   ("A6", 16), ("A7", 17), ("Z1", 18), ("Z2", 19)]

/-- A raw physical-activity table: one clean row, one row with a null key,
one with a null value. -/
def paW : List (Option String × Option ℚ) :=
  [(some "USA", some 25), (none, some 1), (some "BRA", none)]

/-- A raw skilled-birth-attendance table with one clean row. -/
def sbaW : List (Option String × Option ℚ) :=
  [(some "USA", some 99)]

/-- A World Bank control table whose only value is null. -/
def gdpW : List (String × Option ℚ) := [("USA", none)]

/-- An empty World Bank control table. -/
def eduW : List (String × Option ℚ) := []

/-- The analysis row produced from `paW`, `sbaW`, `gdpW`, `eduW`. -/
def rUSA : ARow :=
  { iso3 := "USA"
    insuff_pa_female_pct := some 25
    skilled_birth_attendance_pct := some 99
    gdp_pc := none
    sec_enroll_f := none
    female_activity_rate_pct := some 75 }

/-! ## Theorems -/

/-- The paging loop can fail by fuel exhaustion or the runaway guard, but
never with the configuration error: that error is raised only by the
`page_size` check that precedes the loop. -/
theorem who_paged_go_ne_config {α : Type} (server : Nat → Nat → List α)
    (page_size max_rows : Nat) :
    ∀ fuel skip (out : List α),
      (who_paged_go server page_size max_rows fuel skip out).1 ≠
        .error .configError := by
  intro fuel
  induction fuel with
  | zero => intro skip out h; simp [who_paged_go] at h
  | succ n ih =>
    intro skip out
    simp only [who_paged_go]
    by_cases h1 : (server page_size skip).isEmpty
    · simp [h1]
    · simp only [Bool.not_eq_true] at h1
      simp only [h1, Bool.false_eq_true, if_false]
      split
      · simp
      · exact ih (skip + page_size) (out ++ server page_size skip)

/-- C3: a `page_size` above the ceiling of 1000 makes `who_paged` fail with
the configuration error after zero network calls; a `page_size` at or below
the ceiling never produces that error. -/
theorem who_paged_page_size_guard {α : Type} (server : Nat → Nat → List α)
    (page_size max_rows fuel : Nat) :
    (WHO_TOP_LIMIT < page_size →
      who_paged server page_size max_rows fuel = (.error .configError, 0)) ∧
    (page_size ≤ WHO_TOP_LIMIT →
      (who_paged server page_size max_rows fuel).1 ≠ .error .configError) := by
  constructor
  · intro h
    unfold who_paged
    rw [if_pos h]
  · intro h
    unfold who_paged
    rw [if_neg (by omega)]
    exact who_paged_go_ne_config server page_size max_rows fuel 0 []

/-- C3 witness: `page_size = 1001` errors with zero calls, `page_size = 1000`
does not raise the configuration error. -/
theorem who_paged_page_size_guard_witness :
    who_paged srvW 1001 1000000 5 = (.error .configError, 0) ∧
    (who_paged srvW 1000 1000000 5).1 ≠ .error .configError :=
  ⟨(who_paged_page_size_guard srvW 1001 1000000 5).1 (by decide),
   (who_paged_page_size_guard srvW 1000 1000000 5).2 (by decide)⟩

/-- If page `n` (counting from the current offset) is the first empty page
and the accumulated rows stay within `max_rows`, the paging loop returns the
accumulator followed by the concatenation of the `n` nonempty pages, after
exactly `n + 1` requests. -/
theorem who_paged_go_ok {α : Type} (server : Nat → Nat → List α)
    (page_size max_rows : Nat) :
    ∀ (n fuel skip : Nat) (out : List α),
      server page_size (skip + n * page_size) = [] →
      (∀ i, i < n → server page_size (skip + i * page_size) ≠ []) →
      (out ++ pagesConcat server page_size skip n).length ≤ max_rows →
      n + 1 ≤ fuel →
      who_paged_go server page_size max_rows fuel skip out =
        (.ok (out ++ pagesConcat server page_size skip n), n + 1) := by
  intro n
  induction n with
  | zero =>
    intro fuel skip out hempty _ _ hfuel
    match fuel, hfuel with
    | f + 1, _ =>
      simp only [Nat.zero_mul, Nat.add_zero] at hempty
      simp [who_paged_go, hempty, pagesConcat]
  | succ n ih =>
    intro fuel skip out hempty hne hmax hfuel
    match fuel, hfuel with
    | f + 1, hfuel =>
      have h0 : server page_size skip ≠ [] := by
        have h := hne 0 (Nat.succ_pos n)
        simpa using h
      have hconcat : pagesConcat server page_size skip (n + 1) =
          server page_size skip ++ pagesConcat server page_size (skip + page_size) n := rfl
      have harith : ∀ i, skip + page_size + i * page_size = skip + (i + 1) * page_size := by
        intro i; ring
      have hempty2 : server page_size (skip + page_size + n * page_size) = [] := by
        rw [harith n]; exact hempty
      have hne2 : ∀ i, i < n → server page_size (skip + page_size + i * page_size) ≠ [] := by
        intro i hi; rw [harith i]; exact hne (i + 1) (by omega)
      have hmax2 : ((out ++ server page_size skip) ++
          pagesConcat server page_size (skip + page_size) n).length ≤ max_rows := by
        rw [hconcat] at hmax
        simpa [List.append_assoc] using hmax
      have hguard : ¬ ((out ++ server page_size skip).length > max_rows) := by
        have hlen := hmax2
        simp only [List.length_append] at hlen ⊢
        omega
      have hrec := ih f (skip + page_size) (out ++ server page_size skip)
        hempty2 hne2 hmax2 (by omega)
      have hisEmpty : (server page_size skip).isEmpty = false := by
        cases hsv : server page_size skip with
        | nil => exact absurd hsv h0
        | cons a l => rfl
      simp only [who_paged_go, hisEmpty, Bool.false_eq_true, if_false, gt_iff_lt]
      rw [if_neg (by omega)]
      rw [hrec]
      rw [hconcat, ← List.append_assoc]

/-- C2: for every `page_size` at or below the ceiling and every source, if
page `n` is the first page with zero records and the total row count stays
within `max_rows`, then `who_paged` returns the concatenation of pages
`0..n-1` in request order — no record duplicated or dropped — terminating on
that first zero-record page after exactly `n + 1` requests; pages shorter
than `page_size` but nonempty (allowed by the hypotheses) do not
terminate the pagination. -/
theorem who_paged_fetch_all {α : Type} (server : Nat → Nat → List α)
    (page_size max_rows fuel n : Nat)
    (hps : page_size ≤ WHO_TOP_LIMIT)
    (hempty : server page_size (n * page_size) = [])
    (hne : ∀ i, i < n → server page_size (i * page_size) ≠ [])
    (hmax : (pagesConcat server page_size 0 n).length ≤ max_rows)
    (hfuel : n + 1 ≤ fuel) :
    who_paged server page_size max_rows fuel =
      (.ok (pagesConcat server page_size 0 n), n + 1) := by
  unfold who_paged
  rw [if_neg (by omega)]
  have h := who_paged_go_ok server page_size max_rows n fuel 0 []
    (by simpa using hempty) (by simpa using hne) (by simpa using hmax) hfuel
  simpa using h

/-- C2 witness: a source with pages `[10, 20]`, then the partial but
nonempty page `[5]`, then an empty page, is fetched as `[10, 20, 5]` in
three requests with `page_size = 2`. -/
theorem who_paged_fetch_all_witness :
    who_paged srvW 2 10 5 = (.ok [10, 20, 5], 3) := by
  rw [who_paged_fetch_all srvW 2 10 5 2 (by decide) (by decide) (by decide)
    (by decide) (by decide)]
  rfl

/-- When every attempt from `k` through `retries` fails, the attempt loop
makes the remaining `retries - k + 1` attempts, sleeping
`backoffUnit * attempt` after each failed attempt except the last, and ends
with the last attempt's error. -/
theorem who_get_loop_all_fail {E J : Type} (attemptRes : Nat → Except E J)
    (errs : Nat → E) (retries : Nat)
    (hfail : ∀ j, 1 ≤ j → j ≤ retries → attemptRes j = .error (errs j)) :
    ∀ m k, 1 ≤ k → k ≤ retries → retries - k = m →
      who_get_loop attemptRes retries k =
        { result := .error (errs retries)
          sleeps := (List.range m).map (fun i => backoffUnit * ((k + i : Nat) : ℚ))
          attempts := m + 1 } := by
  intro m
  induction m with
  | zero =>
    intro k hk1 hk hm
    have hkr : k = retries := by omega
    subst hkr
    unfold who_get_loop
    rw [if_neg (by omega), hfail k hk1 (le_refl k)]
    simp [dif_neg (lt_irrefl k)]
  | succ m ih =>
    intro k hk1 hk hm
    have hklt : k < retries := by omega
    unfold who_get_loop
    rw [if_neg (by omega), hfail k hk1 (by omega)]
    simp only [dif_pos hklt]
    rw [ih (k + 1) (by omega) (by omega) (by omega)]
    have e : ∀ i : Nat, k + 1 + i = k + (i + 1) := fun i => by omega
    congr 1
    rw [List.range_succ_eq_map, List.map_cons, List.map_map, Nat.add_zero]
    refine congrArg₂ List.cons rfl ?_
    refine List.map_congr_left (fun i _ => ?_)
    simp only [Function.comp_apply]
    rw [e i]

/-- C4: when every underlying HTTP attempt fails, the client makes exactly
`retries` attempts, sleeping linearly increasing backoffs
`backoffUnit * attempt_number` between consecutive attempts, and surfaces
the error of the last attempt — never a silent empty result. -/
theorem who_get_retry_exhaustion {E J : Type} (attemptRes : Nat → Except E J)
    (errs : Nat → E) (retries : Nat)
    (hr : 1 ≤ retries)
    (hfail : ∀ k, 1 ≤ k → k ≤ retries → attemptRes k = .error (errs k)) :
    who_get attemptRes retries =
      { result := .error (errs retries)
        sleeps := (List.range (retries - 1)).map
          (fun i => backoffUnit * ((1 + i : Nat) : ℚ))
        attempts := retries } := by
  unfold who_get
  rw [who_get_loop_all_fail attemptRes errs retries hfail (retries - 1) 1
    (le_refl 1) hr rfl]
  have : retries - 1 + 1 = retries := by omega
  rw [this]

/-- C4 witness: with three attempts all failing (attempt `k` failing with
error `k`), the client sleeps `1.5` then `3.0` seconds and raises the error
of attempt 3. -/
theorem who_get_retry_exhaustion_witness :
    who_get attemptFailW 3 =
      { result := .error 3, sleeps := [3 / 2, 3], attempts := 3 } := by
  rw [who_get_retry_exhaustion attemptFailW (fun k => k) 3 (by omega)
    (fun k h1 h2 => rfl)]
  norm_num [backoffUnit, List.range_succ]

/-- C5: `detect_time_field` returns the first field name, in the fixed
preference order `[TimeDimensionValue, TimeDimensionBegin,
TimeDimensionYear]`, that is present in the sampled rows; for every sample
containing none of the three fields it raises a schema-detection error, and
any such error propagates through the Filtered Puller to the caller rather
than being replaced by a guess. -/
theorem detect_time_field_first_match (sample : DF) :
    (∀ f, sample.rows ≠ [] →
        timePreference.find? (fun g => sample.cols.contains g) = some f →
        detect_time_field sample = .ok f) ∧
    ((∀ f ∈ timePreference, sample.cols.contains f = false) →
        ∃ e, detect_time_field sample = .error e) ∧
    (∀ (fetch : String → DF) (year : Int) (sc : Option String) (e : TimeFieldErr),
        detect_time_field sample = .error e →
        who_pull_indicator_year fetch sample year sc = .error e) := by
  refine ⟨?_, ?_, ?_⟩
  · intro f hne hfind
    unfold detect_time_field
    rw [if_neg hne, hfind]
  · intro hall
    by_cases hrows : sample.rows = []
    · exact ⟨.emptySample, by unfold detect_time_field; rw [if_pos hrows]⟩
    · refine ⟨.noTimeField, ?_⟩
      have hfind : timePreference.find? (fun g => sample.cols.contains g) = none :=
        List.find?_eq_none.mpr (fun f hf => by
          intro hf2
          rw [hall f hf] at hf2
          exact Bool.false_ne_true hf2)
      unfold detect_time_field
      rw [if_neg hrows, hfind]
  · intro fetch year sc e h
    simp [who_pull_indicator_year, h]

/-- C5 witness: on a sample carrying only the second preference field the
detector returns it, and on a sample with none of the three fields it
errors. -/
theorem detect_time_field_first_match_witness :
    detect_time_field sampleTDB = .ok "TimeDimensionBegin" ∧
    ∃ e, detect_time_field sampleNoTime = .error e :=
  ⟨(detect_time_field_first_match sampleTDB).1 "TimeDimensionBegin"
      (by decide) (by decide),
   (detect_time_field_first_match sampleNoTime).2.1 (by decide)⟩

/-- C6: the category resolver locates the label and code columns
case-insensitively, returns the code of the first row (in vocabulary order)
whose label case-insensitively contains the target substring `"female"`,
raises the category-not-found error when no row matches, and raises the
schema-mismatch error when the label or code column is absent. -/
theorem infer_female_value_code_cases (vocab : DF) :
    (∀ code_col title_col r,
        lowerColGet vocab "code" = some code_col →
        lowerColGet vocab "title" = some title_col →
        vocab.rows.find? (titleMatches title_col) = some r →
        infer_female_value_code vocab = .ok (pyStr (rowGet r code_col))) ∧
    (∀ code_col title_col,
        lowerColGet vocab "code" = some code_col →
        lowerColGet vocab "title" = some title_col →
        (∀ r ∈ vocab.rows, titleMatches title_col r = false) →
        infer_female_value_code vocab = .error .categoryNotFound) ∧
    ((lowerColGet vocab "code" = none ∨ lowerColGet vocab "title" = none) →
        infer_female_value_code vocab = .error .schemaMismatch) := by
  refine ⟨?_, ?_, ?_⟩
  · intro code_col title_col r h1 h2 hfind
    simp [infer_female_value_code, h1, h2, hfind]
  · intro code_col title_col h1 h2 hall
    have hfind : vocab.rows.find? (titleMatches title_col) = none :=
      List.find?_eq_none.mpr (fun r hr => by simp [hall r hr])
    simp [infer_female_value_code, h1, h2, hfind]
  · intro h
    rcases h with h | h
    · simp [infer_female_value_code, h]
    · cases hc : lowerColGet vocab "code" <;>
        simp [infer_female_value_code, h, hc]

/-- C6 witness: on the vocabulary with rows `(M, Male), (F, Female)` the
resolver returns `"F"`; with no matching label it raises category-not-found;
with the title column absent it raises schema-mismatch. -/
theorem infer_female_value_code_cases_witness :
    infer_female_value_code vocabMF = .ok "F" ∧
    infer_female_value_code vocabNoFemale = .error .categoryNotFound ∧
    infer_female_value_code vocabNoTitle = .error .schemaMismatch :=
  ⟨(infer_female_value_code_cases vocabMF).1 "Code" "Title"
      [("Code", some "F"), ("Title", some "Female")] (by decide) (by decide) (by decide),
   (infer_female_value_code_cases vocabNoFemale).2.1 "Code" "Title"
      (by decide) (by decide) (by decide),
   (infer_female_value_code_cases vocabNoTitle).2.2 (Or.inr (by decide))⟩

/-- C8: cell-wise, the derived log column is null when the input is null or
non-positive, and is the natural logarithm of the input when the input is
positive. -/
theorem log_gdp_pc_cases (x : Option ℝ) :
    (∀ v, x = some v → 0 < v → log_gdp_pc x = some (Real.log v)) ∧
    (∀ v, x = some v → v ≤ 0 → log_gdp_pc x = none) ∧
    (x = none → log_gdp_pc x = none) := by
  refine ⟨?_, ?_, ?_⟩
  · intro v hx hv; subst hx; simp [log_gdp_pc, hv]
  · intro v hx hv; subst hx; simp [log_gdp_pc, not_lt.mpr hv]
  · intro hx; subst hx; simp [log_gdp_pc]

/-- C8 witness: a negative input yields null and the input `1` yields
`log 1`. -/
theorem log_gdp_pc_cases_witness :
    log_gdp_pc (some (-3)) = none ∧ log_gdp_pc (some 1) = some (Real.log 1) :=
  ⟨(log_gdp_pc_cases (some (-3))).2.1 (-3) rfl (by norm_num),
   (log_gdp_pc_cases (some 1)).1 1 rfl (by norm_num)⟩

/-- C9: an indicator pull without a requested category code returns the
country-filtered year-only fetch result as-is; in particular a zero-row
result is returned as an empty table, not an error, and propagates to the
caller. -/
theorem who_pull_no_category (fetch : String → DF) (sample : DF) (year : Int)
    (tf : String) (hdet : detect_time_field sample = .ok tf) :
    who_pull_indicator_year fetch sample year none =
      .ok (filterCountry (fetch (timeFilterOf tf year))) ∧
    ((filterCountry (fetch (timeFilterOf tf year))).rows = [] →
      ∃ d, who_pull_indicator_year fetch sample year none = .ok d ∧ d.rows = []) := by
  constructor
  · simp [who_pull_indicator_year, hdet]
  · intro h
    exact ⟨_, by simp [who_pull_indicator_year, hdet], h⟩

/-- C9 witness: against a source that returns no rows at all, the pull
without a category succeeds with an empty table. -/
theorem who_pull_no_category_witness :
    ∃ d, who_pull_indicator_year (fun _ => emptyDF) sampleTDV 2019 none = .ok d ∧
      d.rows = [] :=
  (who_pull_no_category (fun _ => emptyDF) sampleTDV 2019 "TimeDimensionValue"
    rfl).2 rfl

/-- If `c` is the unique element of `L` satisfying `p`, then the first
match found in `L` is `c`. -/
theorem find?_eq_of_unique {α : Type} {p : α → Bool} :
    ∀ (L : List α) (c : α), c ∈ L → p c = true →
      (∀ c2 ∈ L, c2 ≠ c → p c2 = false) → L.find? p = some c := by
  intro L
  induction L with
  | nil => intro c hc; simp at hc
  | cons a L ih =>
    intro c hc hpc honly
    by_cases hac : a = c
    · subst hac
      simp [List.find?_cons, hpc]
    · have hpa : p a = false := honly a (List.mem_cons_self a L) hac
      have hcL : c ∈ L := by
        rcases List.mem_cons.mp hc with h | h
        · exact absurd h.symm hac
        · exact h
      rw [List.find?_cons, hpa]
      exact ih c hcL hpc (fun c2 h2 => honly c2 (List.mem_cons_of_mem a h2))

/-- C1 counterexample: the combined filter yields zero country rows and the
year-only rows contain exactly `K = 2` rows carrying the requested code
`"FMLE"` in some `Dim*` column — one in `Dim1`, one in `Dim2` — yet the
Filtered Puller returns only 1 row (the rows matching on `Dim1`, the first
`Dim*` column containing the code anywhere), not those 2 rows. -/
theorem who_pull_fallback_counterexample :
    (filterCountry (fetchSplit (combinedFilterOf "TimeDimensionValue" 2019 "FMLE"))).rows
      = [] ∧
    kRowsSplit.length = 2 ∧
    ∃ d, who_pull_indicator_year fetchSplit sampleTDV 2019 (some "FMLE") = .ok d ∧
      d.rows.length = 1 ∧ d.rows ≠ kRowsSplit :=
  ⟨by decide, by decide, ⟨_, rfl, by decide, by decide⟩⟩

/-- C1 amended: if the server-side combined filter yields zero country rows
while the year-only filter yields rows of which exactly `K` carry the
requested category code in some `Dim*` column, and the code occurs in only
one `Dim*` column across those rows, then the Filtered Puller returns
exactly those `K` rows, regardless of which `Dim*` column holds the code. -/
theorem who_pull_fallback_single_column (fetch : String → DF) (sample : DF)
    (year : Int) (tf code c : String)
    (hdet : detect_time_field sample = .ok tf)
    (hempty : (filterCountry (fetch (combinedFilterOf tf year code))).rows = [])
    (hc : c ∈ dimColsOf (filterCountry (fetch (timeFilterOf tf year))))
    (hhit : (filterCountry (fetch (timeFilterOf tf year))).rows.any
        (fun r => rowGet r c = some code) = true)
    (honly : ∀ c2 ∈ dimColsOf (filterCountry (fetch (timeFilterOf tf year))),
        c2 ≠ c → ∀ r ∈ (filterCountry (fetch (timeFilterOf tf year))).rows,
          rowGet r c2 ≠ some code) :
    who_pull_indicator_year fetch sample year (some code) =
      .ok { cols := (filterCountry (fetch (timeFilterOf tf year))).cols
            rows := (filterCountry (fetch (timeFilterOf tf year))).rows.filter
              (fun r => (dimColsOf (filterCountry (fetch (timeFilterOf tf year)))).any
                (fun c2 => rowGet r c2 = some code)) } := by
  have honly2 : ∀ c2 ∈ dimColsOf (filterCountry (fetch (timeFilterOf tf year))),
      c2 ≠ c →
      (filterCountry (fetch (timeFilterOf tf year))).rows.any
        (fun r => rowGet r c2 = some code) = false := by
    intro c2 h2 hne
    rw [List.any_eq_false]
    intro r hr
    simpa using honly c2 h2 hne r hr
  have hfind := find?_eq_of_unique
    (dimColsOf (filterCountry (fetch (timeFilterOf tf year)))) c hc hhit honly2
  have hfilter : (filterCountry (fetch (timeFilterOf tf year))).rows.filter
        (fun r => rowGet r c = some code) =
      (filterCountry (fetch (timeFilterOf tf year))).rows.filter
        (fun r => (dimColsOf (filterCountry (fetch (timeFilterOf tf year)))).any
          (fun c2 => rowGet r c2 = some code)) := by
    refine List.filter_congr (fun r hr => ?_)
    by_cases h : rowGet r c = some code
    · have hany : (dimColsOf (filterCountry (fetch (timeFilterOf tf year)))).any
          (fun c2 => rowGet r c2 = some code) = true :=
        List.any_eq_true.mpr ⟨c, hc, by simpa using h⟩
      simp [h, hany]
    · have hany : (dimColsOf (filterCountry (fetch (timeFilterOf tf year)))).any
          (fun c2 => rowGet r c2 = some code) = false := by
        rw [List.any_eq_false]
        intro c2 h2
        by_cases hc2 : c2 = c
        · subst hc2; simpa using h
        · simpa using honly c2 h2 hc2 r hr
      simp [h, hany]
  simp only [who_pull_indicator_year, hdet]
  rw [if_pos hempty, hfind]
  exact congrArg Except.ok (by rw [hfilter])

/-- C1 amended witness: the code `"FMLE"` occurs only in the `Dim2` column
of the year-only rows (not the first `Dim*` column scanned), and the puller
returns exactly the rows carrying it in some `Dim*` column. -/
theorem who_pull_fallback_single_column_witness :
    who_pull_indicator_year fetchDim2 sampleTDV 2019 (some "FMLE") =
      .ok { cols := (filterCountry (fetchDim2 (timeFilterOf "TimeDimensionValue" 2019))).cols
            rows := (filterCountry (fetchDim2 (timeFilterOf "TimeDimensionValue" 2019))).rows.filter
              (fun r => (dimColsOf (filterCountry (fetchDim2 (timeFilterOf "TimeDimensionValue" 2019)))).any
                (fun c2 => rowGet r c2 = some "FMLE")) } :=
  who_pull_fallback_single_column fetchDim2 sampleTDV 2019 "TimeDimensionValue" "FMLE"
    "Dim2" rfl (by decide) (by decide) (by decide) (by decide)

/-- In a table whose keys are pairwise distinct, at most one row carries a
given key. -/
theorem filter_key_len_le {β : Type} (R : List (String × β)) (k : String)
    (hR : (R.map Prod.fst).Nodup) :
    (R.filter (fun q => q.1 = k)).length ≤ 1 := by
  induction R with
  | nil => simp
  | cons a R ih =>
    simp only [List.map_cons, List.nodup_cons] at hR
    by_cases h : a.1 = k
    · have hnil : R.filter (fun q => q.1 = k) = [] := by
        refine List.filter_eq_nil_iff.mpr (fun b hb => ?_)
        simp only [decide_eq_true_eq]
        intro hbk
        exact hR.1 (h ▸ hbk ▸ List.mem_map_of_mem Prod.fst hb)
      simp [List.filter_cons, h, hnil]
    · simpa [List.filter_cons, h] using ih hR.2

/-- A left join against a table with pairwise-distinct keys has exactly one
output row per left row. -/
theorem leftJoin_length {α β : Type} (L : List (String × α)) (R : List (String × β))
    (hR : (R.map Prod.fst).Nodup) : (leftJoin L R).length = L.length := by
  induction L with
  | nil => rfl
  | cons p L ih =>
    have hstep : leftJoin (p :: L) R =
        (match R.filter (fun q => q.1 = p.1) with
          | [] => [(p.1, p.2, (none : Option β))]
          | ms => ms.map (fun q => (p.1, p.2, some q.2))) ++ leftJoin L R := by
      simp [leftJoin]
    rw [hstep]
    have hf := filter_key_len_le R p.1 hR
    cases hfil : R.filter (fun q => q.1 = p.1) with
    | nil =>
      simp [hfil, ih]
    | cons m ms =>
      rw [hfil] at hf
      have hms : ms = [] := by
        cases ms with
        | nil => rfl
        | cons b bs => simp at hf
      subst hms
      simp [hfil, ih]

/-- A left-join output row whose key is absent from the right table carries
`none` in the right-hand column. -/
theorem leftJoin_unmatched {α β : Type} (L : List (String × α)) (R : List (String × β))
    (p : String × α × Option β) (hp : p ∈ leftJoin L R)
    (hk : p.1 ∉ R.map Prod.fst) : p.2.2 = none := by
  rcases List.mem_flatMap.mp hp with ⟨q, hq, hmem⟩
  cases hfil : R.filter (fun r => r.1 = q.1) with
  | nil =>
    rw [hfil] at hmem
    simp only [List.mem_singleton] at hmem
    rw [hmem]
  | cons m ms =>
    rw [hfil] at hmem
    rcases List.mem_map.mp hmem with ⟨m2, hm2, hpm⟩
    have hm2f : m2 ∈ R.filter (fun r => r.1 = q.1) := hfil ▸ hm2
    have hm2R : m2 ∈ R := List.mem_of_mem_filter hm2f
    have hm2k : m2.1 = q.1 := by
      have := List.of_mem_filter hm2f
      simpa using this
    exfalso
    apply hk
    rw [← hpm]
    simpa [hm2k] using List.mem_map_of_mem Prod.fst hm2R

/-- Every left-join output row restricts to a row of the left table. -/
theorem leftJoin_mem_left {α β : Type} {L : List (String × α)} {R : List (String × β)}
    {p : String × α × Option β} (hp : p ∈ leftJoin L R) : (p.1, p.2.1) ∈ L := by
  rcases List.mem_flatMap.mp hp with ⟨q, hq, hmem⟩
  cases hfil : R.filter (fun r => r.1 = q.1) with
  | nil =>
    rw [hfil] at hmem
    simp only [List.mem_singleton] at hmem
    rw [hmem]
    simpa using hq
  | cons m ms =>
    rw [hfil] at hmem
    rcases List.mem_map.mp hmem with ⟨m2, _, hpm⟩
    rw [← hpm]
    simpa using hq

/-- Every inner-join output row restricts to a row of the left table. -/
theorem innerJoin_mem_left {α β : Type} {L : List (String × α)} {R : List (String × β)}
    {p : String × α × β} (hp : p ∈ innerJoin L R) : (p.1, p.2.1) ∈ L := by
  rcases List.mem_flatMap.mp hp with ⟨q, hq, hmem⟩
  rcases List.mem_map.mp hmem with ⟨m, _, hpm⟩
  rw [← hpm]
  simpa using hq

/-- Every inner-join output row restricts to a row of the right table. -/
theorem innerJoin_mem_right {α β : Type} {L : List (String × α)} {R : List (String × β)}
    {p : String × α × β} (hp : p ∈ innerJoin L R) : (p.1, p.2.2) ∈ R := by
  rcases List.mem_flatMap.mp hp with ⟨q, hq, hmem⟩
  rcases List.mem_map.mp hmem with ⟨m, hm, hpm⟩
  have hmR : m ∈ R := List.mem_of_mem_filter hm
  have hmk : m.1 = q.1 := by
    have := List.of_mem_filter hm
    simpa using this
  have hqm : ((q.1, m.2) : String × β) = m := by
    rw [← hmk]
  rw [← hpm]
  show ((q.1, m.2) : String × β) ∈ R
  rw [hqm]
  exact hmR

/-- C7: the Joiner inner-joins the primary table against the required table
and left-joins each optional-control table, so (first conjunct) the final
row count equals the row count of the primary-required inner join whenever
the control tables have unique keys; a left join against a unique-keyed
table keeps exactly one row per primary row (second conjunct), and primary
keys absent from the left-joined table carry null in its columns (third
conjunct). -/
theorem joiner_row_count_and_nulls {α β γ δ : Type}
    (P : List (String × α)) (S : List (String × β))
    (G : List (String × γ)) (E : List (String × δ))
    (hG : (G.map Prod.fst).Nodup) (hE : (E.map Prod.fst).Nodup) :
    (leftJoin (leftJoin (innerJoin P S) G) E).length = (innerJoin P S).length ∧
    (leftJoin P G).length = P.length ∧
    (∀ p ∈ leftJoin P G, p.1 ∉ G.map Prod.fst → p.2.2 = none) := by
  refine ⟨?_, leftJoin_length P G hG,
    fun p hp hk => leftJoin_unmatched P G p hp hk⟩
  rw [leftJoin_length _ E hE, leftJoin_length _ G hG]

/-- C7 witness: left-joining the 10-key primary table against a table
sharing 7 keys yields exactly 10 rows, of which exactly the 3 rows with
non-overlapping keys carry null in the left-joined column. -/
theorem joiner_row_count_and_nulls_witness :
    (leftJoin primary10 left7).length = 10 ∧
    ((leftJoin primary10 left7).filter (fun p => p.2.2 = none)).length = 3 := by
  have h := joiner_row_count_and_nulls primary10 primary10 left7 left7
    (by decide) (by decide)
  exact ⟨by rw [h.2.1]; rfl, by decide⟩

/-- Every row surviving the two-column dropna has a present value. -/
theorem dropna2_isSome (t : List (Option String × Option ℚ)) :
    ∀ q ∈ dropna2 t, q.2.isSome := by
  intro q hq
  rcases List.mem_filterMap.mp hq with ⟨p, _, hmatch⟩
  rcases p with ⟨k?, v?⟩
  cases k? with
  | none => simp [dropna2] at hmatch
  | some k =>
    cases v? with
    | none => simp [dropna2] at hmatch
    | some v =>
      simp only [Option.some.injEq] at hmatch
      rw [← hmatch]
      rfl

/-- C10: every row of the final analysis table has a non-null value in both
required indicator columns and hence a non-null derived
`female_activity_rate_pct`; only the optional World Bank control columns may
be null, because both required tables are row-wise null-dropped before the
inner join. -/
theorem analysis_required_nonnull (pa sba : List (Option String × Option ℚ))
    (gdp edu : List (String × Option ℚ)) :
    ∀ r ∈ buildAnalysis pa sba gdp edu,
      r.insuff_pa_female_pct.isSome ∧
      r.skilled_birth_attendance_pct.isSome ∧
      r.female_activity_rate_pct.isSome := by
  intro r hr
  rcases List.mem_map.mp hr with ⟨p, hp, hrp⟩
  have h2 : (p.1, p.2.1) ∈ leftJoin (innerJoin (dropna2 pa) (dropna2 sba)) gdp :=
    leftJoin_mem_left hp
  have h1 : (p.1, p.2.1.1) ∈ innerJoin (dropna2 pa) (dropna2 sba) :=
    leftJoin_mem_left h2
  have hpa : (p.1, p.2.1.1.1) ∈ dropna2 pa := innerJoin_mem_left h1
  have hsba : (p.1, p.2.1.1.2) ∈ dropna2 sba := innerJoin_mem_right h1
  have hpaS : (p.2.1.1.1).isSome := dropna2_isSome pa _ hpa
  have hsbaS : (p.2.1.1.2).isSome := dropna2_isSome sba _ hsba
  rw [← hrp]
  refine ⟨hpaS, hsbaS, ?_⟩
  simpa using hpaS

/-- C10 witness: on concrete raw tables with null keys, null values, a
null-valued control and an empty control, the single output row has both
required columns and the derived column present. -/
theorem analysis_required_nonnull_witness :
    rUSA.insuff_pa_female_pct.isSome ∧
    rUSA.skilled_birth_attendance_pct.isSome ∧
    rUSA.female_activity_rate_pct.isSome :=
  analysis_required_nonnull paW sbaW gdpW eduW rUSA (by
    norm_num [buildAnalysis, dropna2, innerJoin, leftJoin, paW, sbaW, gdpW, eduW,
      rUSA, List.filterMap_cons, List.filter_cons])

end WSP
